/-
Formal verification of the AiWarmachine calibration/geometry core.

This development is a shallow embedding of the Python modules
`game_table.py`, `camera.py`, `camera_calibration.py` and `qr_detection.py`
of the AiWarmachine repository.  Python floats are idealised as rationals
(`ℚ`), Python ints as `ℤ`/`ℕ`.  External OpenCV / NumPy routines
(`cv.getPerspectiveTransform`, `cv.calibrateCamera`,
`cv.initUndistortRectifyMap`, `np.linalg.inv`, `np.float32` / `np.int16`
casts) are modelled either concretely (matrix inverse via the adjugate,
exactly what `np.linalg.inv` computes for a 3x3 matrix; integer casts with
their range behaviour) or through their documented contract (perspective
transform solve, calibration solve), passed in as explicit parameters.
-/
import Mathlib

/-- A 2D integer pixel position, as stored in the table corner lists. -/
structure Pnt where
  x : ℤ
  y : ℤ
deriving DecidableEq, Repr

/-- Read one axis of a point; axis `0` is X, axis `1` is Y
(`constants.TABLE_CORNERS_AXIS_X/Y`). -/
def Pnt.axis (p : Pnt) (a : Fin 2) : ℤ :=
  if a = 0 then p.x else p.y

/-- Write one axis of a point. -/
def Pnt.setAxis (p : Pnt) (a : Fin 2) (v : ℤ) : Pnt :=
  if a = 0 then { p with x := v } else { p with y := v }

/-- The four table corners, ordered BL, TL, TR, BR
(`constants.TABLE_CORNERS_INDEX_BL/TL/TR/BR` = 0,1,2,3). -/
structure Corners4 where
  bl : Pnt
  tl : Pnt
  tr : Pnt
  br : Pnt
deriving DecidableEq, Repr

/-- Index a corner list by `constants.TABLE_CORNERS_INDEX_*`. -/
def Corners4.get (c : Corners4) (i : Fin 4) : Pnt :=
  if i = 0 then c.bl else if i = 1 then c.tl else if i = 2 then c.tr else c.br

/-- Replace the corner at an index. -/
def Corners4.set (c : Corners4) (i : Fin 4) (p : Pnt) : Corners4 :=
  if i = 0 then { c with bl := p }
  else if i = 1 then { c with tl := p }
  else if i = 2 then { c with tr := p }
  else { c with br := p }

/-- A camera/projector region of interest `[min_x, min_y, max_x, max_y]`
(`constants.ROI_MIN_X/MIN_Y/MAX_X/MAX_Y` = 0,1,2,3). -/
structure ROI where
  min_x : ℤ
  min_y : ℤ
  max_x : ℤ
  max_y : ℤ
deriving DecidableEq, Repr

/-- The min/max bounding box of the four corners, as computed by
`GameTable._update_roi` (Python `min`/`max` over the 4-element list). -/
def roi_of_corners (c : Corners4) : ROI :=
  { min_x := min (min (min c.bl.x c.tl.x) c.tr.x) c.br.x
    min_y := min (min (min c.bl.y c.tl.y) c.tr.y) c.br.y
    max_x := max (max (max c.bl.x c.tl.x) c.tr.x) c.br.x
    max_y := max (max (max c.bl.y c.tl.y) c.tr.y) c.br.y }

/-- A pair indexed by `constants.TABLE_CORNERS_TYPE_CAMERA = 0` /
`constants.TABLE_CORNERS_TYPE_PROJECTOR = 1`, mirroring the two-element
Python lists `self._corners_list`, `self._roi`, etc. -/
structure TwoOf (α : Type) where
  camera : α
  projector : α
deriving DecidableEq, Repr

/-- Index by corners type. -/
def TwoOf.get {α : Type} (p : TwoOf α) (i : Fin 2) : α :=
  if i = 0 then p.camera else p.projector

/-- Replace the component of one corners type. -/
def TwoOf.set {α : Type} (p : TwoOf α) (i : Fin 2) (v : α) : TwoOf α :=
  if i = 0 then { p with camera := v } else { p with projector := v }

@[simp]
theorem TwoOf.get_set_self {α : Type} (p : TwoOf α) (i : Fin 2) (v : α) :
    (p.set i v).get i = v := by
  fin_cases i <;> simp [TwoOf.get, TwoOf.set]

theorem TwoOf.get_set_ne {α : Type} (p : TwoOf α) (i j : Fin 2) (v : α) (h : j ≠ i) :
    (p.set i v).get j = p.get j := by
  fin_cases i <;> fin_cases j <;> simp_all [TwoOf.get, TwoOf.set]

/-- A 3x3 matrix of rationals, the shape of the homographies
(`camera_to_game_matrix`, `game_to_projector_matrix`) and of camera
intrinsic matrices. -/
structure Mat3 where
  m00 : ℚ
  m01 : ℚ
  m02 : ℚ
  m10 : ℚ
  m11 : ℚ
  m12 : ℚ
  m20 : ℚ
  m21 : ℚ
  m22 : ℚ
deriving DecidableEq, Repr

/-- Matrix-vector product, `matrix.dot(pos_homo)` in the source. -/
def Mat3.mulVec (M : Mat3) (v : ℚ × ℚ × ℚ) : ℚ × ℚ × ℚ :=
  (M.m00 * v.1 + M.m01 * v.2.1 + M.m02 * v.2.2,
   M.m10 * v.1 + M.m11 * v.2.1 + M.m12 * v.2.2,
   M.m20 * v.1 + M.m21 * v.2.1 + M.m22 * v.2.2)

/-- Determinant of a 3x3 matrix. -/
def Mat3.det (M : Mat3) : ℚ :=
  M.m00 * (M.m11 * M.m22 - M.m12 * M.m21)
  - M.m01 * (M.m10 * M.m22 - M.m12 * M.m20)
  + M.m02 * (M.m10 * M.m21 - M.m11 * M.m20)

/-- The inverse of a 3x3 matrix via the adjugate, which is what
`np.linalg.inv` computes for a nonsingular input (the source calls it in
`GameTable.warp_game_position_to_camera`). -/
def Mat3.inv (M : Mat3) : Mat3 :=
  let d := M.det
  { m00 := (M.m11 * M.m22 - M.m12 * M.m21) / d
    m01 := -(M.m01 * M.m22 - M.m02 * M.m21) / d
    m02 := (M.m01 * M.m12 - M.m02 * M.m11) / d
    m10 := -(M.m10 * M.m22 - M.m12 * M.m20) / d
    m11 := (M.m00 * M.m22 - M.m02 * M.m20) / d
    m12 := -(M.m00 * M.m12 - M.m02 * M.m10) / d
    m20 := (M.m10 * M.m21 - M.m11 * M.m20) / d
    m21 := -(M.m00 * M.m21 - M.m01 * M.m20) / d
    m22 := (M.m00 * M.m11 - M.m01 * M.m10) / d }

/-- Apply a scalar function to every entry (models the `np.float32` cast
applied entrywise when matrices are loaded from JSON). -/
def Mat3.map (f : ℚ → ℚ) (M : Mat3) : Mat3 :=
  { m00 := f M.m00, m01 := f M.m01, m02 := f M.m02
    m10 := f M.m10, m11 := f M.m11, m12 := f M.m12
    m20 := f M.m20, m21 := f M.m21, m22 := f M.m22 }

theorem Mat3.inv_mulVec_mulVec (M : Mat3) (v : ℚ × ℚ × ℚ) (hd : M.det ≠ 0) :
    M.inv.mulVec (M.mulVec v) = v := by
  obtain ⟨x, y, z⟩ := v
  have hd' : M.det ≠ 0 := hd
  unfold Mat3.det at hd'
  refine Prod.ext ?_ (Prod.ext ?_ ?_) <;>
    simp only [Mat3.inv, Mat3.mulVec, Mat3.det] <;>
    field_simp <;>
    ring

/-- The corners overlay image of `GameTable.get_corners_overlay`, modelled by
the data that fully determines the painted `QImage`: its allocated size, the
closed polyline drawn through the corners (in drawing order, ROI-local), the
pen width, and whether the per-corner coloured handle circles were drawn
(they are drawn exactly when the table is not calibrated; the colour of each
handle is a fixed function of the corner index, `TABLE_CORNERS_INDEX_TO_COLOR`). -/
structure OverlayImage where
  width : ℤ
  height : ℤ
  polyline : List Pnt
  pen_size : ℤ
  corner_handles : Bool
deriving DecidableEq, Repr

/-- The game table state, embedding the fields set up by
`GameTable.__init__` (game_table.py lines 34-95). -/
structure GameTable where
  name : String
  width : ℚ
  height : ℚ
  resolution_factor : ℚ
  corners_list : TwoOf Corners4
  camera_to_game_matrix : Option Mat3
  game_to_projector_matrix : Option Mat3
  roi : TwoOf ROI
  adjusted_roi : TwoOf (Option ROI)
  corners_overlay_needs_update : TwoOf Bool
  corners_overlay : TwoOf (Option OverlayImage)
  disable_slots : Bool
deriving DecidableEq, Repr

/-- The default corner rectangle installed by `GameTable.__init__` when no
corners are given: `[[100, 980], [100, 100], [1800, 100], [1800, 980]]`. -/
def default_corners : Corners4 :=
  { bl := { x := 100, y := 980 }, tl := { x := 100, y := 100 }
    tr := { x := 1800, y := 100 }, br := { x := 1800, y := 980 } }

/-- `GameTable.__init__`: installs default corners where none are given,
computes both ROIs, and discards both homographies unless both were
supplied (lines 91-93: `if self._camera_to_game_matrix is None or
self._game_to_projector_matrix is None: ... both = None`). -/
def GameTable.init (name : String) (width height resolution_factor : ℚ)
    (in_camera_corners in_projector_corners : Option Corners4)
    (camera_to_game_matrix game_to_projector_matrix : Option Mat3) : GameTable :=
  let cam_corners := in_camera_corners.getD default_corners
  let proj_corners := in_projector_corners.getD default_corners
  { name := name
    width := width
    height := height
    resolution_factor := resolution_factor
    corners_list := { camera := cam_corners, projector := proj_corners }
    camera_to_game_matrix :=
      if camera_to_game_matrix.isNone || game_to_projector_matrix.isNone then none
      else camera_to_game_matrix
    game_to_projector_matrix :=
      if camera_to_game_matrix.isNone || game_to_projector_matrix.isNone then none
      else game_to_projector_matrix
    roi := { camera := roi_of_corners cam_corners, projector := roi_of_corners proj_corners }
    adjusted_roi := { camera := none, projector := none }
    corners_overlay_needs_update := { camera := true, projector := true }
    corners_overlay := { camera := none, projector := none }
    disable_slots := false }

/-- `GameTable._update_roi`: recompute the ROI of one space as the min/max
bounding box of its 4 corners. -/
def GameTable.update_roi (t : GameTable) (corners_type : Fin 2) : GameTable :=
  { t with roi := t.roi.set corners_type (roi_of_corners (t.corners_list.get corners_type)) }

/-- `GameTable.set_corner_position` (a Qt slot): when slots are enabled,
write the value into the selected corner coordinate, mark that space's
overlay dirty, and recompute that space's ROI. -/
def GameTable.set_corner_position (t : GameTable) (corner_type : Fin 2)
    (corner_index : Fin 4) (axis : Fin 2) (value : ℤ) : GameTable :=
  if t.disable_slots then t
  else
    let corners := t.corners_list.get corner_type
    let corners' := corners.set corner_index ((corners.get corner_index).setAxis axis value)
    let t1 :=
      { t with
        corners_list := t.corners_list.set corner_type corners'
        corners_overlay_needs_update := t.corners_overlay_needs_update.set corner_type true }
    t1.update_roi corner_type

/-- `GameTable.convert_mm_to_pixel` with no rounding flag: linear scale by
the resolution factor. -/
def GameTable.convert_mm_to_pixel (t : GameTable) (value : ℚ) : ℚ :=
  value * t.resolution_factor

/-- `GameTable.get_reference_corner_2d_points`: the 4 reference corners of
the game rectangle `[(0,0), (0,h), (w,h), (w,0)]` in BL, TL, TR, BR order,
where `w`/`h` are the table width/height in mm converted to pixels. -/
def GameTable.get_reference_corner_2d_points (t : GameTable) : Fin 4 → ℚ × ℚ :=
  let width := t.convert_mm_to_pixel t.width
  let height := t.convert_mm_to_pixel t.height
  fun i =>
    if i = 0 then (0, 0)
    else if i = 1 then (0, height)
    else if i = 2 then (width, height)
    else (width, 0)

/-- The `camera_points` array built inside `GameTable.calibrate`
(lines 288-294): the 4 camera corners offset into camera-ROI-local
coordinates (minus the camera ROI `min_x`/`min_y`). -/
def GameTable.camera_points (t : GameTable) : Fin 4 → ℚ × ℚ := fun i =>
  let p := (t.corners_list.get 0).get i
  (((p.x : ℚ) - ((t.roi.get 0).min_x : ℚ)), ((p.y : ℚ) - ((t.roi.get 0).min_y : ℚ)))

/-- The `projector_points` array built inside `GameTable.calibrate`
(lines 295-301): the 4 projector corners offset into projector-ROI-local
coordinates. -/
def GameTable.projector_points (t : GameTable) : Fin 4 → ℚ × ℚ := fun i =>
  let p := (t.corners_list.get 1).get i
  (((p.x : ℚ) - ((t.roi.get 1).min_x : ℚ)), ((p.y : ℚ) - ((t.roi.get 1).min_y : ℚ)))

/-- `GameTable.is_calibrated`: both homography matrices are present. -/
def GameTable.is_calibrated (t : GameTable) : Bool :=
  t.camera_to_game_matrix.isSome && t.game_to_projector_matrix.isSome

/-- Contract of the external OpenCV routine `cv.getPerspectiveTransform`
(called by `GameTable.calibrate`): the returned 3x3 matrix maps each of the
4 source points onto the corresponding destination point in homogeneous
coordinates, i.e. up to a nonzero scalar per point. -/
def IsPerspectiveTransform (src dst : Fin 4 → ℚ × ℚ) (M : Mat3) : Prop :=
  ∀ i : Fin 4, ∃ l : ℚ, l ≠ 0 ∧
    M.mulVec ((src i).1, (src i).2, 1) = (l * (dst i).1, l * (dst i).2, l)

/-- `GameTable.calibrate`: recompute both ROIs, then solve the two
homographies from the current corners.  The external
`cv.getPerspectiveTransform` solver is a parameter (`gpt`); the camera
matrix is `gpt camera_points game_points` and the projector matrix is
`gpt game_points projector_points`, exactly as in the source. -/
def GameTable.calibrate (t : GameTable)
    (gpt : (Fin 4 → ℚ × ℚ) → (Fin 4 → ℚ × ℚ) → Mat3) : GameTable :=
  let t1 := (t.update_roi 0).update_roi 1
  let game_points := t1.get_reference_corner_2d_points
  { t1 with
    camera_to_game_matrix := some (gpt t1.camera_points game_points)
    game_to_projector_matrix := some (gpt game_points t1.projector_points) }

/-- `GameTable.uncalibrate`: discard both matrices, keep corners and ROIs. -/
def GameTable.uncalibrate (t : GameTable) : GameTable :=
  { t with camera_to_game_matrix := none, game_to_projector_matrix := none }

/-- `GameTable.warp_camera_position_to_game` with `rounded=False`: treat the
position as homogeneous `(x, y, 1)`, multiply by the camera-to-game matrix
and divide by the third component.  Returns `none` when the matrix is absent
(the Python code would fail with an attribute error on `None`). -/
def GameTable.warp_camera_position_to_game (t : GameTable) (pos : ℚ × ℚ) : Option (ℚ × ℚ) :=
  match t.camera_to_game_matrix with
  | none => none
  | some M =>
    let w := M.mulVec (pos.1, pos.2, 1)
    some (w.1 / w.2.2, w.2.1 / w.2.2)

/-- `GameTable.warp_game_position_to_camera` with `rounded=False`: multiply
by `np.linalg.inv(camera_to_game_matrix)` and divide by the third component.
Returns `none` when the matrix is absent or singular (`np.linalg.inv`
raises on a singular matrix). -/
def GameTable.warp_game_position_to_camera (t : GameTable) (pos : ℚ × ℚ) : Option (ℚ × ℚ) :=
  match t.camera_to_game_matrix with
  | none => none
  | some M =>
    if M.det = 0 then none
    else
      let w := M.inv.mulVec (pos.1, pos.2, 1)
      some (w.1 / w.2.2, w.2.1 / w.2.2)

@[simp]
theorem Pnt.axis_setAxis_self (p : Pnt) (a : Fin 2) (v : ℤ) :
    (p.setAxis a v).axis a = v := by
  fin_cases a <;> simp [Pnt.axis, Pnt.setAxis]

theorem Pnt.axis_setAxis_ne (p : Pnt) (a a' : Fin 2) (v : ℤ) (h : a' ≠ a) :
    (p.setAxis a v).axis a' = p.axis a' := by
  fin_cases a <;> fin_cases a' <;> simp_all [Pnt.axis, Pnt.setAxis]

@[simp]
theorem Corners4.get_corner_set_same (c : Corners4) (i : Fin 4) (p : Pnt) :
    (c.set i p).get i = p := by
  fin_cases i <;> simp [Corners4.get, Corners4.set]

theorem Corners4.get_corner_set_other (c : Corners4) (i j : Fin 4) (p : Pnt) (h : j ≠ i) :
    (c.set i p).get j = c.get j := by
  fin_cases i <;> fin_cases j <;> simp_all [Corners4.get, Corners4.set]

/-- C10: The `GameTable` constructor never produces a half-calibrated
table: `is_calibrated()` holds right after construction exactly when both
homographies were supplied, and if either was missing both stored
homographies are `none`. -/
theorem gametable_init_is_calibrated_iff_both_matrices (name : String)
    (w h rf : ℚ) (cc pc : Option Corners4) (m1 m2 : Option Mat3) :
    ((GameTable.init name w h rf cc pc m1 m2).is_calibrated = (m1.isSome && m2.isSome)) ∧
    ((GameTable.init name w h rf cc pc m1 m2).camera_to_game_matrix
      = if m1.isSome && m2.isSome then m1 else none) ∧
    ((GameTable.init name w h rf cc pc m1 m2).game_to_projector_matrix
      = if m1.isSome && m2.isSome then m2 else none) := by
  cases m1 <;> cases m2 <;>
    simp [GameTable.init, GameTable.is_calibrated]

/-- C1: After `GameTable.calibrate` runs, provided the external
`cv.getPerspectiveTransform` solve met its contract on the points the
source passed to it (the 4 ROI-local camera corners and the 4 game
reference corners), `warp_camera_position_to_game` maps each ROI-local
camera corner exactly onto the corresponding game reference corner
`(0,0), (0,h), (w,h), (w,0)` (BL, TL, TR, BR), where `w`/`h` are the table
width/height in mm times the resolution factor. -/
theorem calibrate_warps_camera_corners_to_reference (t : GameTable)
    (gpt : (Fin 4 → ℚ × ℚ) → (Fin 4 → ℚ × ℚ) → Mat3) (M : Mat3) (i : Fin 4)
    (hM : (t.calibrate gpt).camera_to_game_matrix = some M)
    (hcontract : IsPerspectiveTransform (t.calibrate gpt).camera_points
      (t.calibrate gpt).get_reference_corner_2d_points M) :
    (t.calibrate gpt).warp_camera_position_to_game ((t.calibrate gpt).camera_points i)
      = some ((t.calibrate gpt).get_reference_corner_2d_points i) := by
  obtain ⟨l, hl, heq⟩ := hcontract i
  simp only [GameTable.warp_camera_position_to_game, hM, heq]
  rw [mul_div_cancel_left₀ _ hl, mul_div_cancel_left₀ _ hl]

/-- The affine camera-to-game matrix for the default corner rectangle:
used to instantiate the `cv.getPerspectiveTransform` contract concretely. -/
def gpt_affine : Mat3 :=
  { m00 := 9144 / 8500, m01 := 0, m02 := 0
    m10 := 0, m11 := -(6096 / 4400), m12 := 6096 / 5
    m20 := 0, m21 := 0, m22 := 1 }

/-- A game table with all constructor defaults (`GameTable()`.) -/
def default_table : GameTable :=
  GameTable.init "Latest" (914.4 : ℚ) (609.6 : ℚ) 2 none none none none

theorem calibrate_warps_camera_corners_to_reference_witness :
    (default_table.calibrate (fun _ _ => gpt_affine)).warp_camera_position_to_game
        ((default_table.calibrate (fun _ _ => gpt_affine)).camera_points 0)
      = some ((default_table.calibrate (fun _ _ => gpt_affine)).get_reference_corner_2d_points 0) :=
  calibrate_warps_camera_corners_to_reference default_table (fun _ _ => gpt_affine)
    gpt_affine 0 rfl
    (by
      intro i
      fin_cases i <;>
        exact ⟨1, one_ne_zero, by
          norm_num [default_table, GameTable.init, GameTable.calibrate,
            GameTable.update_roi, GameTable.camera_points,
            GameTable.get_reference_corner_2d_points, GameTable.convert_mm_to_pixel,
            TwoOf.get, TwoOf.set, Corners4.get, roi_of_corners, default_corners,
            Mat3.mulVec, gpt_affine, Prod.ext_iff, Fin.ext_iff]⟩)

theorem Mat3.mulVec_div (M : Mat3) (v : ℚ × ℚ × ℚ) (c : ℚ) :
    M.mulVec (v.1 / c, v.2.1 / c, v.2.2 / c)
      = ((M.mulVec v).1 / c, (M.mulVec v).2.1 / c, (M.mulVec v).2.2 / c) := by
  obtain ⟨x, y, z⟩ := v
  refine Prod.ext ?_ (Prod.ext ?_ ?_) <;> simp [Mat3.mulVec] <;> ring

/-- C2: For a calibrated table whose camera-to-game matrix is invertible,
and a position whose homogeneous third component is nonzero under the
forward transform (and likewise under the inverse transform at the warped
point), warping camera-to-game then game-to-camera returns the original
position exactly. -/
theorem warp_game_to_camera_inverts_warp_camera_to_game (t : GameTable)
    (M : Mat3) (p : ℚ × ℚ)
    (hM : t.camera_to_game_matrix = some M)
    (hdet : M.det ≠ 0)
    (h1 : (M.mulVec (p.1, p.2, 1)).2.2 ≠ 0)
    (h2 : (M.inv.mulVec
        ((M.mulVec (p.1, p.2, 1)).1 / (M.mulVec (p.1, p.2, 1)).2.2,
         (M.mulVec (p.1, p.2, 1)).2.1 / (M.mulVec (p.1, p.2, 1)).2.2, 1)).2.2 ≠ 0) :
    (t.warp_camera_position_to_game p).bind t.warp_game_position_to_camera = some p := by
  have hw := Mat3.inv_mulVec_mulVec M (p.1, p.2, 1) hdet
  have e1 : M.inv.m00 * (M.mulVec (p.1, p.2, 1)).1 + M.inv.m01 * (M.mulVec (p.1, p.2, 1)).2.1
      + M.inv.m02 * (M.mulVec (p.1, p.2, 1)).2.2 = p.1 := congrArg Prod.fst hw
  have e2 : M.inv.m10 * (M.mulVec (p.1, p.2, 1)).1 + M.inv.m11 * (M.mulVec (p.1, p.2, 1)).2.1
      + M.inv.m12 * (M.mulVec (p.1, p.2, 1)).2.2 = p.2 :=
    congrArg (fun v => v.2.1) hw
  have e3 : M.inv.m20 * (M.mulVec (p.1, p.2, 1)).1 + M.inv.m21 * (M.mulVec (p.1, p.2, 1)).2.1
      + M.inv.m22 * (M.mulVec (p.1, p.2, 1)).2.2 = 1 :=
    congrArg (fun v => v.2.2) hw
  simp only [GameTable.warp_camera_position_to_game, hM, Option.bind,
    GameTable.warp_game_position_to_camera, if_neg hdet, Option.some.injEq]
  have hx : M.inv.m00 * ((M.mulVec (p.1, p.2, 1)).1 / (M.mulVec (p.1, p.2, 1)).2.2)
      + M.inv.m01 * ((M.mulVec (p.1, p.2, 1)).2.1 / (M.mulVec (p.1, p.2, 1)).2.2)
      + M.inv.m02 * 1 = p.1 / (M.mulVec (p.1, p.2, 1)).2.2 := by
    field_simp
    linear_combination e1
  have hy : M.inv.m10 * ((M.mulVec (p.1, p.2, 1)).1 / (M.mulVec (p.1, p.2, 1)).2.2)
      + M.inv.m11 * ((M.mulVec (p.1, p.2, 1)).2.1 / (M.mulVec (p.1, p.2, 1)).2.2)
      + M.inv.m12 * 1 = p.2 / (M.mulVec (p.1, p.2, 1)).2.2 := by
    field_simp
    linear_combination e2
  have hz : M.inv.m20 * ((M.mulVec (p.1, p.2, 1)).1 / (M.mulVec (p.1, p.2, 1)).2.2)
      + M.inv.m21 * ((M.mulVec (p.1, p.2, 1)).2.1 / (M.mulVec (p.1, p.2, 1)).2.2)
      + M.inv.m22 * 1 = 1 / (M.mulVec (p.1, p.2, 1)).2.2 := by
    field_simp
    linear_combination e3
  have hfinal : (M.inv.mulVec
      ((M.mulVec (p.1, p.2, 1)).1 / (M.mulVec (p.1, p.2, 1)).2.2,
       (M.mulVec (p.1, p.2, 1)).2.1 / (M.mulVec (p.1, p.2, 1)).2.2, 1))
      = (p.1 / (M.mulVec (p.1, p.2, 1)).2.2, p.2 / (M.mulVec (p.1, p.2, 1)).2.2,
         1 / (M.mulVec (p.1, p.2, 1)).2.2) := by
    simp only [Mat3.mulVec]
    exact Prod.ext hx (Prod.ext hy hz)
  rw [hfinal]
  have hone : ((1 : ℚ) / (M.mulVec (p.1, p.2, 1)).2.2) ≠ 0 := one_div_ne_zero h1
  refine Prod.ext ?_ ?_ <;> · simp only; field_simp

/-- A table constructed with both homographies supplied (the affine default
matrix on both sides), used as the concrete calibrated table. -/
def calibrated_table : GameTable :=
  GameTable.init "Latest" (914.4 : ℚ) (609.6 : ℚ) 2 none none
    (some gpt_affine) (some gpt_affine)

theorem warp_game_to_camera_inverts_warp_camera_to_game_witness :
    (calibrated_table.warp_camera_position_to_game ((3 : ℚ), (7 : ℚ))).bind
        calibrated_table.warp_game_position_to_camera = some ((3 : ℚ), (7 : ℚ)) :=
  warp_game_to_camera_inverts_warp_camera_to_game calibrated_table gpt_affine (3, 7)
    (by
      norm_num [calibrated_table, GameTable.init])
    (by norm_num [Mat3.det, gpt_affine])
    (by norm_num [Mat3.mulVec, gpt_affine])
    (by norm_num [Mat3.inv, Mat3.mulVec, Mat3.det, gpt_affine])

/-- C9: With slots enabled, `set_corner_position` writes the value unclamped
into exactly the selected corner coordinate, leaves every other coordinate
of that space's corners unchanged, marks that space's overlay dirty,
immediately recomputes that space's ROI as the min/max over its 4 corners,
and leaves the other space's corners, ROI and dirty flag, and both
homography matrices, unchanged. -/
theorem set_corner_position_frame_effect (t : GameTable) (ct : Fin 2)
    (ci : Fin 4) (ax : Fin 2) (v : ℤ) (ci' : Fin 4) (ax' : Fin 2) (ct' : Fin 2)
    (hslots : t.disable_slots = false)
    (hother : ci' ≠ ci ∨ ax' ≠ ax) (hct : ct' ≠ ct) :
    ((((t.set_corner_position ct ci ax v).corners_list.get ct).get ci).axis ax = v) ∧
    ((((t.set_corner_position ct ci ax v).corners_list.get ct).get ci').axis ax'
      = ((t.corners_list.get ct).get ci').axis ax') ∧
    ((t.set_corner_position ct ci ax v).corners_overlay_needs_update.get ct = true) ∧
    ((t.set_corner_position ct ci ax v).roi.get ct
      = roi_of_corners ((t.set_corner_position ct ci ax v).corners_list.get ct)) ∧
    ((t.set_corner_position ct ci ax v).corners_list.get ct' = t.corners_list.get ct') ∧
    ((t.set_corner_position ct ci ax v).roi.get ct' = t.roi.get ct') ∧
    ((t.set_corner_position ct ci ax v).corners_overlay_needs_update.get ct'
      = t.corners_overlay_needs_update.get ct') ∧
    ((t.set_corner_position ct ci ax v).camera_to_game_matrix = t.camera_to_game_matrix) ∧
    ((t.set_corner_position ct ci ax v).game_to_projector_matrix = t.game_to_projector_matrix) := by
  simp only [GameTable.set_corner_position, hslots, Bool.false_eq_true, if_false,
    GameTable.update_roi]
  refine ⟨?_, ?_, ?_, ?_, ?_, ?_, ?_, trivial, trivial⟩
  · simp
  · rcases hother with h | h
    · rw [TwoOf.get_set_self, Corners4.get_corner_set_other _ _ _ _ h]
    · by_cases hc : ci' = ci
      · subst hc
        rw [TwoOf.get_set_self, Corners4.get_corner_set_same, Pnt.axis_setAxis_ne _ _ _ _ h]
      · rw [TwoOf.get_set_self, Corners4.get_corner_set_other _ _ _ _ hc]
  · simp
  · simp
  · rw [TwoOf.get_set_ne _ _ _ _ hct]
  · rw [TwoOf.get_set_ne _ _ _ _ hct]
  · rw [TwoOf.get_set_ne _ _ _ _ hct]

theorem set_corner_position_frame_effect_witness :
    ((((default_table.set_corner_position 0 0 0 50).corners_list.get 0).get 0).axis 0 = 50) ∧
    ((((default_table.set_corner_position 0 0 0 50).corners_list.get 0).get 1).axis 1
      = ((default_table.corners_list.get 0).get 1).axis 1) ∧
    ((default_table.set_corner_position 0 0 0 50).corners_overlay_needs_update.get 0 = true) ∧
    ((default_table.set_corner_position 0 0 0 50).roi.get 0
      = roi_of_corners ((default_table.set_corner_position 0 0 0 50).corners_list.get 0)) ∧
    ((default_table.set_corner_position 0 0 0 50).corners_list.get 1
      = default_table.corners_list.get 1) ∧
    ((default_table.set_corner_position 0 0 0 50).roi.get 1 = default_table.roi.get 1) ∧
    ((default_table.set_corner_position 0 0 0 50).corners_overlay_needs_update.get 1
      = default_table.corners_overlay_needs_update.get 1) ∧
    ((default_table.set_corner_position 0 0 0 50).camera_to_game_matrix
      = default_table.camera_to_game_matrix) ∧
    ((default_table.set_corner_position 0 0 0 50).game_to_projector_matrix
      = default_table.game_to_projector_matrix) :=
  set_corner_position_frame_effect default_table 0 0 0 50 1 1 1 rfl
    (Or.inl (by decide)) (by decide)

/-- `GameTable.get_corners_overlay` (game_table.py lines 324-386): returns
the cached overlay when one exists and the dirty flag is clear; otherwise
recomputes the adjusted ROI (12px margin, clamped at 0 on the min side),
repaints the overlay (closed polyline through the corners in drawing order
BL, TL, TR, BR, pen width 5 when bold else 1, coloured corner handles only
while not calibrated) and stores image and adjusted ROI back into the
state.  Faithful to the source, the dirty flag is never reset.  The
reallocate-only-on-size-change branch of the source is invisible at value
level because the painter repaints the whole image either way. -/
def GameTable.get_corners_overlay (t : GameTable) (corners_type : Fin 2)
    (bold : Bool) : (OverlayImage × Option ROI) × GameTable :=
  match t.corners_overlay.get corners_type, t.corners_overlay_needs_update.get corners_type with
  | some img, false => ((img, t.adjusted_roi.get corners_type), t)
  | _, _ =>
    let r := t.roi.get corners_type
    let aroi : ROI :=
      { min_x := max 0 (r.min_x - 12), min_y := max 0 (r.min_y - 12)
        max_x := r.max_x + 12, max_y := r.max_y + 12 }
    let corners := t.corners_list.get corners_type
    let pt := fun (p : Pnt) => ({ x := p.x - aroi.min_x, y := p.y - aroi.min_y } : Pnt)
    let img : OverlayImage :=
      { width := aroi.max_x - aroi.min_x + 1
        height := aroi.max_y - aroi.min_y + 1
        polyline := [pt corners.bl, pt corners.tl, pt corners.tr, pt corners.br, pt corners.bl]
        pen_size := if bold then 5 else 1
        corner_handles := !t.is_calibrated }
    ((img, some aroi),
     { t with
       adjusted_roi := t.adjusted_roi.set corners_type (some aroi)
       corners_overlay := t.corners_overlay.set corners_type (some img) })

/-- C7 (code bug evidence): on a fresh default table, a successful call to
`get_corners_overlay` for the camera space stores an overlay image but
leaves the camera dirty flag set — the source never resets
`_corners_overlay_needs_update`, so the cached-return branch can never be
taken and a second call with no intervening mutation redraws the overlay
instead of returning the cached one. -/
theorem get_corners_overlay_never_clears_dirty_flag :
    (((default_table.get_corners_overlay 0 false).2.corners_overlay.get 0).isSome = true) ∧
    ((default_table.get_corners_overlay 0 false).2.corners_overlay_needs_update.get 0 = true) := by
  constructor <;> rfl

/-- The serialisable table data produced by `GameTable.get_data`
(game_table.py lines 180-209), at JSON value level. -/
structure TableData where
  name : String
  width : ℚ
  height : ℚ
  resolution_factor : ℚ
  in_camera_corners : Corners4
  in_projector_corners : Corners4
  camera_to_game_matrix : Option Mat3
  game_to_projector_matrix : Option Mat3
  camera_roi : ROI
  adjusted_camera_roi : Option ROI
  projector_roi : ROI
  adjusted_projector_roi : Option ROI
deriving DecidableEq, Repr

/-- `GameTable.get_data` (and hence `GameTable.save`, which writes exactly
this data as JSON): matrices are emitted via `tolist`, which is the
identity at value level. -/
def GameTable.get_data (t : GameTable) : TableData :=
  { name := t.name
    width := t.width
    height := t.height
    resolution_factor := t.resolution_factor
    in_camera_corners := t.corners_list.camera
    in_projector_corners := t.corners_list.projector
    camera_to_game_matrix := t.camera_to_game_matrix
    game_to_projector_matrix := t.game_to_projector_matrix
    camera_roi := t.roi.camera
    adjusted_camera_roi := t.adjusted_roi.camera
    projector_roi := t.roi.projector
    adjusted_projector_roi := t.adjusted_roi.projector }

/-- `GameTable.load` (game_table.py lines 220-248): every field is read
back from the JSON data; the two matrices go through
`cv.Mat(np.float32(...))`, modelled by applying the float32 cast `f32`
entrywise; the overlay dirty flags are reset to `[True, True]` and the
cached overlays dropped. -/
def GameTable.load (t : GameTable) (f32 : ℚ → ℚ) (d : TableData) : GameTable :=
  { t with
    name := d.name
    width := d.width
    height := d.height
    resolution_factor := d.resolution_factor
    corners_list := { camera := d.in_camera_corners, projector := d.in_projector_corners }
    camera_to_game_matrix := d.camera_to_game_matrix.map (Mat3.map f32)
    game_to_projector_matrix := d.game_to_projector_matrix.map (Mat3.map f32)
    roi := { camera := d.camera_roi, projector := d.projector_roi }
    adjusted_roi := { camera := d.adjusted_camera_roi, projector := d.adjusted_projector_roi }
    corners_overlay_needs_update := { camera := true, projector := true }
    corners_overlay := { camera := none, projector := none } }

/-- Apply the float32 cast to the float-array fields of saved table data
(the fields that do not survive a save/load round trip bit-exactly but
only to float32 precision). -/
def TableData.f32_image (f32 : ℚ → ℚ) (d : TableData) : TableData :=
  { d with
    camera_to_game_matrix := d.camera_to_game_matrix.map (Mat3.map f32)
    game_to_projector_matrix := d.game_to_projector_matrix.map (Mat3.map f32) }

/-- A 3-component float vector (`rvec` / `tvec`). -/
def vec3_map (f : ℚ → ℚ) (v : ℚ × ℚ × ℚ) : ℚ × ℚ × ℚ :=
  (f v.1, f v.2.1, f v.2.2)

/-- Camera region of interest `(x, y, w, h)` as returned by
`cv.getOptimalNewCameraMatrix`. -/
structure CamROI where
  x : ℤ
  y : ℤ
  w : ℤ
  h : ℤ
deriving DecidableEq, Repr

/-- Camera capture properties: an integer-keyed map of numeric values
(`cv.VideoCaptureProperties` ids). -/
def PropMap : Type := ℤ → Option ℚ

/-- The camera state, embedding the calibration-relevant fields set up by
`Camera.__init__` (camera.py lines 38-124).  The undistortion remap tables
`_mapx` / `_mapy` are outputs of the external
`cv.initUndistortRectifyMap`; their contents are opaque to every claim, so
they are modelled by their presence only. -/
structure Camera where
  name : String
  model_name : String
  device_id : ℤ
  capture_properties_dict : PropMap
  mtx : Option Mat3
  dist : Option (List ℚ)
  mtx_prime : Option Mat3
  roi : Option CamROI
  tvec : Option (ℚ × ℚ × ℚ)
  rvec : Option (ℚ × ℚ × ℚ)
  mapx : Option Unit
  mapy : Option Unit

/-- `Camera.recalculate_undistort_mapping` (camera.py lines 126-136):
rebuilds the remap tables via `cv.initUndistortRectifyMap` when `_mtx`,
`_mtx_prime` and `_roi` are all present, else clears them. -/
def Camera.recalculate_undistort_mapping (c : Camera) : Camera :=
  if c.mtx.isSome && c.mtx_prime.isSome && c.roi.isSome then
    { c with mapx := some (), mapy := some () }
  else
    { c with mapx := none, mapy := none }

/-- `Camera.is_calibrated` (camera.py lines 286-299): all six
calibrated-state fields are present. -/
def Camera.is_calibrated (c : Camera) : Bool :=
  c.mtx.isSome && c.dist.isSome && c.mtx_prime.isSome && c.roi.isSome &&
    c.mapx.isSome && c.mapy.isSome

/-- `Camera.is_posed` (camera.py lines 301-311), translated exactly as
written: the Python expression is `self.is_calibrated and self._rvec is
not None and self._tvec is not None`, where `self.is_calibrated` -- with
no parentheses -- is the bound method object, which is always truthy, so
the conjunct is the constant `true` (its docstring promises "True if
camera is calibrated and posed"). -/
def Camera.is_posed (c : Camera) : Bool :=
  true && c.rvec.isSome && c.tvec.isSome

/-- The outputs of the external solves used by `Camera.calibrate`: the
`cv.calibrateCamera` success flag and intrinsics, the
`cv.getOptimalNewCameraMatrix` results, and the per-view reprojection
errors (each already divided by the number of points, as computed from
`cv.projectPoints` / `cv.norm` in the source's loop). -/
structure CvCalibrateResult where
  ret : Bool
  mtx : Mat3
  dist : List ℚ
  mtx_prime : Mat3
  roi : CamROI
  per_view_error : List ℚ

/-- `Camera.calibrate` (camera.py lines 313-349): raises
"Unable to calibrate camera with these images." when the multi-view solve
reports failure, before any state field is assigned; on success overwrites
all six calibrated-state fields and returns the mean per-view reprojection
error. -/
def Camera.calibrate (c : Camera) (cv_result : CvCalibrateResult) :
    Camera × Except String ℚ :=
  if cv_result.ret = false then
    (c, Except.error "Unable to calibrate camera with these images.")
  else
    ({ c with
       mtx := some cv_result.mtx
       dist := some cv_result.dist
       mtx_prime := some cv_result.mtx_prime
       roi := some cv_result.roi
       mapx := some ()
       mapy := some () },
     Except.ok (cv_result.per_view_error.sum / (cv_result.per_view_error.length : ℚ)))

/-- C4: When the underlying multi-view calibration solve reports failure,
`Camera.calibrate` raises exactly
"Unable to calibrate camera with these images." and returns with the whole
camera state -- intrinsics, distortion, optimal matrix, ROI and both remap
tables -- untouched. -/
theorem camera_calibrate_failure_preserves_state (c : Camera)
    (cv_result : CvCalibrateResult) (hret : cv_result.ret = false) :
    c.calibrate cv_result
      = (c, Except.error "Unable to calibrate camera with these images.") := by
  simp [Camera.calibrate, hret]

/-- A camera that already carries a full prior calibration, used to
instantiate the failure-preservation theorem concretely. -/
def calibrated_camera : Camera :=
  { name := "cam", model_name := "model", device_id := 0
    capture_properties_dict := fun _ => none
    mtx := some gpt_affine, dist := some [0, 0, 0, 0, 0]
    mtx_prime := some gpt_affine, roi := some { x := 1, y := 2, w := 640, h := 480 }
    tvec := some (1, 2, 3), rvec := some (4, 5, 6)
    mapx := some (), mapy := some () }

/-- A failing solver result. -/
def failing_cv_result : CvCalibrateResult :=
  { ret := false, mtx := gpt_affine, dist := [], mtx_prime := gpt_affine
    roi := { x := 0, y := 0, w := 0, h := 0 }, per_view_error := [] }

theorem camera_calibrate_failure_preserves_state_witness :
    calibrated_camera.calibrate failing_cv_result
      = (calibrated_camera, Except.error "Unable to calibrate camera with these images.") :=
  camera_calibrate_failure_preserves_state calibrated_camera failing_cv_result rfl

/-- A camera that has both pose vectors but no calibration data at all. -/
def pose_only_camera : Camera :=
  { name := "cam", model_name := "", device_id := 0
    capture_properties_dict := fun _ => none
    mtx := none, dist := none, mtx_prime := none, roi := none
    tvec := some (1, 2, 3), rvec := some (4, 5, 6)
    mapx := none, mapy := none }

/-- C5 (code bug evidence): a camera with both pose vectors set but no
calibration whatsoever is reported as posed by `Camera.is_posed`, because
the source tests the truthiness of the bound method `self.is_calibrated`
instead of calling it -- contradicting the method's own docstring
("True if camera is calibrated and posed"). -/
theorem is_posed_ignores_calibration :
    pose_only_camera.is_posed = true ∧ pose_only_camera.is_calibrated = false := by
  constructor <;> rfl

/-- The camera data written by `Camera.save` (camera.py lines 440-461), at
JSON value level (`tolist` is the identity on values). -/
structure CameraData where
  name : String
  device_id : ℤ
  model_name : String
  capture_properties_dict : PropMap
  mtx : Option Mat3
  dist : Option (List ℚ)
  mtx_prime : Option Mat3
  roi : Option CamROI
  tvec : Option (ℚ × ℚ × ℚ)
  rvec : Option (ℚ × ℚ × ℚ)

/-- `Camera.save`: serialise the current settings and calibration. -/
def Camera.save (c : Camera) : CameraData :=
  { name := c.name
    device_id := c.device_id
    model_name := c.model_name
    capture_properties_dict := c.capture_properties_dict
    mtx := c.mtx
    dist := c.dist
    mtx_prime := c.mtx_prime
    roi := c.roi
    tvec := c.tvec
    rvec := c.rvec }

/-- The `np.int16` cast applied by `common.load_camera_data` to the ROI
(`np.array(camera_data['roi'], np.int16)`): the value survives exactly when
it fits in a signed 16-bit integer; out-of-range Python integers make the
conversion fail. -/
def int16_cast (v : ℤ) : Option ℤ :=
  if -32768 ≤ v ∧ v ≤ 32767 then some v else none

/-- The int16 conversion of a whole camera ROI. -/
def CamROI.int16 (r : CamROI) : Option CamROI := do
  let x ← int16_cast r.x
  let y ← int16_cast r.y
  let w ← int16_cast r.w
  let h ← int16_cast r.h
  some { x := x, y := y, w := w, h := h }

/-- All four ROI components fit in a signed 16-bit integer. -/
def CamROI.fits_int16 (r : CamROI) : Prop :=
  (-32768 ≤ r.x ∧ r.x ≤ 32767) ∧ (-32768 ≤ r.y ∧ r.y ≤ 32767) ∧
  (-32768 ≤ r.w ∧ r.w ≤ 32767) ∧ (-32768 ≤ r.h ∧ r.h ≤ 32767)

instance (r : CamROI) : Decidable r.fits_int16 := by
  unfold CamROI.fits_int16
  infer_instance

theorem CamROI.int16_of_fits (r : CamROI) (h : r.fits_int16) : r.int16 = some r := by
  obtain ⟨hx, hy, hw, hh⟩ := h
  simp [CamROI.int16, int16_cast, hx.1, hx.2, hy.1, hy.2, hw.1, hw.2, hh.1, hh.2]

/-- Apply the float32 cast to every float-array field of saved camera data
(the conversions done by `common.load_camera_data` lines 389-394, minus the
ROI, which is cast to int16 instead). -/
def CameraData.f32_image (f32 : ℚ → ℚ) (d : CameraData) : CameraData :=
  { d with
    mtx := d.mtx.map (Mat3.map f32)
    dist := d.dist.map (List.map f32)
    mtx_prime := d.mtx_prime.map (Mat3.map f32)
    tvec := d.tvec.map (vec3_map f32)
    rvec := d.rvec.map (vec3_map f32) }

/-- `common.load_camera_data` (common.py lines 376-396), the file-reading
path every caller of `Camera.load` goes through: parses the saved JSON and
converts `mtx`, `dist`, `mtx_prime`, `tvec`, `rvec` to `np.float32` arrays
and `roi` to an `np.int16` array; fails when an ROI component does not fit
in int16. -/
def load_camera_data (f32 : ℚ → ℚ) (d : CameraData) : Option CameraData :=
  match d.roi with
  | none => some (d.f32_image f32)
  | some r => r.int16.map fun r16 => { d.f32_image f32 with roi := some r16 }

/-- `Camera.load` (camera.py lines 463-489) with `update_device_id=False`:
each capture property present in the data overrides the current one (the
`set_capture_property` loop), the calibration and pose fields are taken
from the data, and the undistort mapping is recalculated. -/
def Camera.load (c : Camera) (d : CameraData) : Camera :=
  let c1 :=
    { c with
      name := d.name
      model_name := d.model_name
      capture_properties_dict := fun k =>
        match d.capture_properties_dict k with
        | some v => some v
        | none => c.capture_properties_dict k
      mtx := d.mtx
      dist := d.dist
      mtx_prime := d.mtx_prime
      roi := d.roi
      tvec := d.tvec
      rvec := d.rvec }
  c1.recalculate_undistort_mapping

/-- The full camera save / load-from-file / save-again pipeline of C6:
`save` the camera, parse the file back through `common.load_camera_data`,
load the parsed data into the same camera with `Camera.load`, and `save`
again. -/
def camera_roundtrip (c : Camera) (f32 : ℚ → ℚ) : Option CameraData :=
  (load_camera_data f32 c.save).map fun d => (c.load d).save

/-- A calibrated camera whose ROI is larger than a signed 16-bit integer
allows. -/
def big_roi_camera : Camera :=
  { calibrated_camera with roi := some { x := 0, y := 0, w := 40000, h := 30000 } }

/-- C6 counterexample: for a calibrated camera whose ROI width does not fit
in int16, the save / load / save pipeline does not reproduce the state --
`common.load_camera_data` casts the ROI to `np.int16`
(`np.array(camera_data['roi'], np.int16)`), so loading the saved file back
fails instead of reproducing the ROI (even with an identity float32 cast). -/
theorem camera_roundtrip_fails_on_large_roi :
    big_roi_camera.is_calibrated = true ∧
    camera_roundtrip big_roi_camera (fun q => q) = none := by
  constructor <;> rfl

theorem option_mat3_map_idem (f32 : ℚ → ℚ) (hf : ∀ x, f32 (f32 x) = f32 x)
    (m : Option Mat3) :
    (m.map (Mat3.map f32)).map (Mat3.map f32) = m.map (Mat3.map f32) := by
  cases m <;> simp [Mat3.map, hf]

theorem option_list_map_idem (f32 : ℚ → ℚ) (hf : ∀ x, f32 (f32 x) = f32 x)
    (l : Option (List ℚ)) :
    (l.map (List.map f32)).map (List.map f32) = l.map (List.map f32) := by
  cases l <;> simp [List.map_map, Function.comp_def, hf]

theorem option_vec3_map_idem (f32 : ℚ → ℚ) (hf : ∀ x, f32 (f32 x) = f32 x)
    (v : Option (ℚ × ℚ × ℚ)) :
    (v.map (vec3_map f32)).map (vec3_map f32) = v.map (vec3_map f32) := by
  cases v <;> simp [vec3_map, hf]

theorem load_camera_data_of_save (c : Camera) (f32 : ℚ → ℚ)
    (hroi : ∀ r, c.roi = some r → r.fits_int16) :
    load_camera_data f32 c.save = some ((c.save).f32_image f32) := by
  rcases hc : c.roi with _ | r
  · simp [load_camera_data, Camera.save, hc]
  · have h16 := CamROI.int16_of_fits r (hroi r hc)
    simp [load_camera_data, Camera.save, hc, h16, CameraData.f32_image]

/-- C6 amended: the save / load / save round trip reproduces every numeric
field up to one float32 cast and preserves `is_calibrated` (and, for
cameras, `is_posed`), provided the camera's ROI components fit in int16
(the loading path casts the ROI to `np.int16`, so larger values are not
reproduced) and the camera's remap tables are consistent with its
calibration fields (the invariant every code path maintains).  Tables
round-trip unconditionally. -/
theorem save_load_save_reproduces_state (t : GameTable) (c : Camera)
    (f32 : ℚ → ℚ) (hf : ∀ x, f32 (f32 x) = f32 x)
    (hroi : ∀ r, c.roi = some r → r.fits_int16)
    (hmapx : c.mapx.isSome = (c.mtx.isSome && c.mtx_prime.isSome && c.roi.isSome))
    (hmapy : c.mapy.isSome = (c.mtx.isSome && c.mtx_prime.isSome && c.roi.isSome)) :
    (((t.load f32 t.get_data).get_data).f32_image f32 = (t.get_data).f32_image f32) ∧
    ((t.load f32 t.get_data).is_calibrated = t.is_calibrated) ∧
    (load_camera_data f32 c.save = some ((c.save).f32_image f32) ∧
      ((c.load ((c.save).f32_image f32)).save).f32_image f32 = (c.save).f32_image f32 ∧
      (c.load ((c.save).f32_image f32)).is_calibrated = c.is_calibrated ∧
      (c.load ((c.save).f32_image f32)).is_posed = c.is_posed) := by
  refine ⟨?_, ?_, load_camera_data_of_save c f32 hroi, ?_, ?_, ?_⟩
  · simp [GameTable.load, GameTable.get_data, TableData.f32_image,
      option_mat3_map_idem f32 hf]
  · simp [GameTable.load, GameTable.get_data, GameTable.is_calibrated]
  · simp only [Camera.load, Camera.save, CameraData.f32_image,
      Camera.recalculate_undistort_mapping]
    split_ifs with hcond <;>
      · simp only [CameraData.mk.injEq, option_mat3_map_idem f32 hf,
          option_list_map_idem f32 hf, option_vec3_map_idem f32 hf,
          eq_self_iff_true, true_and, and_true]
        funext k
        cases hk : c.capture_properties_dict k <;> simp [hk]
  · simp only [Camera.load, Camera.save, CameraData.f32_image,
      Camera.recalculate_undistort_mapping]
    split_ifs with hcond <;>
      simp only [Camera.is_calibrated, Option.isSome_map, Option.isSome_some,
        Option.isSome_none, Bool.and_true, Bool.and_false, hmapx, hmapy] <;>
      simp only [Option.isSome_map] at hcond <;>
      cases hm : c.mtx.isSome <;> cases hd : c.dist.isSome <;>
        cases hp : c.mtx_prime.isSome <;> cases hr : c.roi.isSome <;>
        simp_all
  · simp only [Camera.load, Camera.save, CameraData.f32_image,
      Camera.recalculate_undistort_mapping]
    split_ifs with hcond <;>
      simp [Camera.is_posed, Option.isSome_map]

theorem save_load_save_reproduces_state_witness :
    (((default_table.load (fun q => q) default_table.get_data).get_data).f32_image (fun q => q)
        = (default_table.get_data).f32_image (fun q => q)) ∧
    ((default_table.load (fun q => q) default_table.get_data).is_calibrated
        = default_table.is_calibrated) ∧
    (load_camera_data (fun q => q) calibrated_camera.save
        = some ((calibrated_camera.save).f32_image (fun q => q)) ∧
      ((calibrated_camera.load
          ((calibrated_camera.save).f32_image (fun q => q))).save).f32_image (fun q => q)
        = (calibrated_camera.save).f32_image (fun q => q) ∧
      (calibrated_camera.load
          ((calibrated_camera.save).f32_image (fun q => q))).is_calibrated
        = calibrated_camera.is_calibrated ∧
      (calibrated_camera.load
          ((calibrated_camera.save).f32_image (fun q => q))).is_posed
        = calibrated_camera.is_posed) :=
  save_load_save_reproduces_state default_table calibrated_camera (fun q => q)
    (fun _ => rfl)
    (fun r hr => Option.some.inj hr ▸ (by decide))
    rfl rfl

/-- `CameraCalibrationHelper.get_checkerboard_3d_reference_points`
(camera_calibration.py lines 103-130): for `w`/`h` squares the internal
grid is `(w-1) x (h-1)`; the outer loop walks `y` from `dim_y - 1` down to
`0`, the inner loop walks `x` from `0` to `dim_x - 1`, and each point is
`(x - dim_x//2, y - dim_y//2, 0.0)` (`int(dim/2)` truncation). -/
def get_checkerboard_3d_reference_points (number_of_squares_w number_of_squares_h : ℕ) :
    List (ℤ × ℤ × ℤ) :=
  let dim_x := number_of_squares_w - 1
  let dim_x_2 := dim_x / 2
  let dim_y := number_of_squares_h - 1
  let dim_y_2 := dim_y / 2
  (List.range dim_y).reverse.flatMap fun (y : ℕ) =>
    (List.range dim_x).map fun (x : ℕ) =>
      (((x : ℤ) - (dim_x_2 : ℤ)), ((y : ℤ) - (dim_y_2 : ℤ)), (0 : ℤ))

/-- The claim's symmetric-span property: the x-coordinates and the
y-coordinates of the generated points each range over an interval that is
symmetric around 0. -/
def spans_symmetrically (pts : List (ℤ × ℤ × ℤ)) : Bool :=
  match (pts.map fun p => p.1).min?, (pts.map fun p => p.1).max?,
        (pts.map fun p => p.2.1).min?, (pts.map fun p => p.2.1).max? with
  | some mnx, some mxx, some mny, some mxy => mnx == -mxx && mny == -mxy
  | _, _, _, _ => false

/-- C3 counterexample: for 2x3 squares (1x2 internal corners) the generated
grid is `[(0, 0, 0), (0, -1, 0)]`: its y-coordinates span `{-1, 0}`, which
is not symmetric around 0, because the offset is the integer `dim // 2`
rather than the exact half `(dim - 1) / 2`.  The symmetric-span part of the
claim fails whenever an internal dimension is even. -/
theorem checkerboard_grid_not_symmetric_for_even_dims :
    get_checkerboard_3d_reference_points 2 3 = [(0, 0, 0), (0, -1, 0)] ∧
    spans_symmetrically (get_checkerboard_3d_reference_points 2 3) = false := by
  constructor <;> rfl

theorem flatMap_const_length {α β : Type} (l : List α) (f : α → List β) (k : ℕ)
    (h : ∀ a ∈ l, (f a).length = k) : (l.flatMap f).length = l.length * k := by
  induction l with
  | nil => simp
  | cons a l ih =>
    simp only [List.flatMap_cons, List.length_append, h a (by simp), List.length_cons]
    rw [ih (fun b hb => h b (by simp [hb]))]
    ring

theorem range_reverse_bind_get {α : Type} (m : ℕ) (f : ℕ → ℕ → α) :
    ∀ (n q r : ℕ), q < n → r < m →
      ((((List.range n).reverse.flatMap fun y => (List.range m).map (f y)).get? (q * m + r))
        = some (f (n - 1 - q) r)) := by
  intro n
  induction n with
  | zero =>
    intro q r hq _
    exact absurd hq (Nat.not_lt_zero q)
  | succ n ih =>
    intro q r hq hr
    have hrev : (List.range (n + 1)).reverse = n :: (List.range n).reverse := by
      rw [List.range_succ, List.reverse_append]
      simp
    rw [hrev, List.flatMap_cons]
    cases q with
    | zero =>
      rw [Nat.zero_mul, Nat.zero_add]
      rw [List.get?_append (by simpa using hr)]
      rw [List.get?_map, List.get?_range hr]
      simp
    | succ q =>
      have hlen : ((List.range m).map (f n)).length = m := by simp
      have hidx : (q + 1) * m + r = m + (q * m + r) := by ring
      rw [hidx, List.get?_append_right (by omega)]
      rw [hlen]
      have hsub : m + (q * m + r) - m = q * m + r := by omega
      rw [hsub]
      have hq' : q < n := Nat.lt_of_succ_lt_succ hq
      rw [ih q r hq' hr]
      have harg : n - 1 - q = n + 1 - 1 - (q + 1) := by omega
      rw [harg]

/-- C3 amended: for `w, h >= 2` squares the reference-point list has
exactly `(w-1)*(h-1)` entries, each with z-coordinate 0, ordered row-major
with the row coordinate starting at the highest row index and descending
(entry `q*(w-1) + r` carries row value `(h-2-q)` before centering) and the
column index ascending; each coordinate is offset by the integer half
dimension `(dim) // 2`, so the grid is symmetric around (0,0) only when the
internal dimensions are odd (for even dimensions it is skewed by one
half-step, as the counterexample shows). -/
theorem checkerboard_reference_points_spec (w h : ℕ) (hw : 2 ≤ w) (hh : 2 ≤ h)
    (q r : ℕ) (hq : q < h - 1) (hr : r < w - 1) :
    ((get_checkerboard_3d_reference_points w h).length = (w - 1) * (h - 1)) ∧
    ((get_checkerboard_3d_reference_points w h).get? (q * (w - 1) + r)
      = some (((r : ℤ) - (((w - 1) / 2 : ℕ) : ℤ)),
              (((h - 2 - q : ℕ) : ℤ) - (((h - 1) / 2 : ℕ) : ℤ)), (0 : ℤ))) := by
  constructor
  · simp only [get_checkerboard_3d_reference_points]
    rw [flatMap_const_length _ _ (w - 1) (fun a _ => by simp)]
    simp [Nat.mul_comm]
  · simp only [get_checkerboard_3d_reference_points]
    rw [range_reverse_bind_get (w - 1)
      (fun y x => (((x : ℤ) - (((w - 1) / 2 : ℕ) : ℤ)),
        ((y : ℤ) - (((h - 1) / 2 : ℕ) : ℤ)), (0 : ℤ))) (h - 1) q r hq hr]
    have : h - 1 - 1 - q = h - 2 - q := by omega
    rw [this]

theorem checkerboard_reference_points_spec_witness :
    ((get_checkerboard_3d_reference_points 24 19).length = 23 * 18) ∧
    ((get_checkerboard_3d_reference_points 24 19).get? (0 * 23 + 0)
      = some ((((0 : ℕ) : ℤ) - ((23 / 2 : ℕ) : ℤ)),
              (((17 : ℕ) : ℤ) - ((18 / 2 : ℕ) : ℤ)), (0 : ℤ))) :=
  checkerboard_reference_points_spec 24 19 (by decide) (by decide) 0 0
    (by decide) (by decide)

/-- One stored QR detection (`qr_detection.py`): the game position and the
detection time. -/
structure QRData where
  pos : ℤ × ℤ
  time : ℚ
deriving DecidableEq, Repr

/-- `constants.QR_CENTER_EPISLON = 4` (sic). -/
def QR_CENTER_EPISLON : ℤ := 4

/-- Membership test / value lookup in the detection-data dict, modelled as
an insertion-ordered association list (a Python dict). -/
def dict_lookup : List (String × QRData) → String → Option QRData
  | [], _ => none
  | (k, v) :: rest, key => if k = key then some v else dict_lookup rest key

/-- `dict[key] = value` on an insertion-ordered association list: replaces
in place, else appends. -/
def dict_set : List (String × QRData) → String → QRData → List (String × QRData)
  | [], key, v => [(key, v)]
  | (k, w) :: rest, key, v =>
    if k = key then (k, v) :: rest else (k, w) :: dict_set rest key v

/-- One iteration of the `update_detection_data` loop
(qr_detection.py lines 56-66): a message not yet stored is new; a stored
message is re-stored only when its position moved by a Manhattan distance
greater than epsilon. -/
def qr_step (epsilon : ℤ) (acc : List (String × QRData) × Bool)
    (e : String × QRData) : List (String × QRData) × Bool :=
  match dict_lookup acc.1 e.1 with
  | none => (dict_set acc.1 e.1 e.2, true)
  | some prev =>
    if |prev.pos.1 - e.2.pos.1| + |prev.pos.2 - e.2.pos.2| > epsilon then
      (dict_set acc.1 e.1 e.2, true)
    else acc

/-- `QRDetector.update_detection_data` (qr_detection.py lines 47-68):
folds the new detections into the stored dict; the second component is
`has_changes`, and the signal `new_qr_detection_data` is emitted exactly
when it is true. -/
def update_detection_data (stored new_data : List (String × QRData))
    (epsilon : ℤ) : List (String × QRData) × Bool :=
  new_data.foldl (qr_step epsilon) (stored, false)

/-- Whether a new detection entry triggers a change relative to the stored
dict: its id is absent, or its position moved more than epsilon
(Manhattan). -/
def qr_trigger (stored : List (String × QRData)) (epsilon : ℤ)
    (e : String × QRData) : Bool :=
  match dict_lookup stored e.1 with
  | none => true
  | some prev => |prev.pos.1 - e.2.pos.1| + |prev.pos.2 - e.2.pos.2| > epsilon

/-- A concrete detection for the counterexample. -/
def qr_data_A : QRData := { pos := (10, 10), time := 0 }

/-- C8 counterexample: first tick detects marker "A" (emitted, stored);
second tick detects nothing -- the set of visible marker ids changed from
{"A"} to {} -- yet `update_detection_data` emits nothing and keeps the
stale marker stored, refuting the claim that an id-set change always
propagates an update. -/
theorem update_detection_data_ignores_disappearance :
    ((update_detection_data [] [("A", qr_data_A)] 4).1 = [("A", qr_data_A)] ∧
     (update_detection_data [] [("A", qr_data_A)] 4).2 = true) ∧
    ((update_detection_data [("A", qr_data_A)] [] 4).1 = [("A", qr_data_A)] ∧
     (update_detection_data [("A", qr_data_A)] [] 4).2 = false) ∧
    (([("A", qr_data_A)].map Prod.fst) ≠ (([] : List (String × QRData)).map Prod.fst)) := by
  refine ⟨⟨rfl, rfl⟩, ⟨rfl, rfl⟩, by simp⟩

theorem dict_lookup_set (l : List (String × QRData)) (k k' : String) (v : QRData) :
    dict_lookup (dict_set l k v) k' = if k' = k then some v else dict_lookup l k' := by
  induction l with
  | nil =>
    rcases eq_or_ne k' k with h | h
    · subst h; simp [dict_set, dict_lookup]
    · simp [dict_set, dict_lookup, h, Ne.symm h]
  | cons a rest ih =>
    obtain ⟨ka, va⟩ := a
    by_cases hk : ka = k
    · subst hk
      rcases eq_or_ne k' ka with h | h
      · subst h; simp [dict_set, dict_lookup]
      · simp [dict_set, dict_lookup, h, Ne.symm h]
    · rcases eq_or_ne k' ka with h | h
      · subst h
        simp [dict_set, dict_lookup, hk, fun hh : k' = k => hk (hh ▸ rfl)]
      · simp [dict_set, dict_lookup, hk, Ne.symm h, ih]

theorem qr_step_eq (epsilon : ℤ) (acc : List (String × QRData) × Bool)
    (e : String × QRData) (stored : List (String × QRData))
    (he : dict_lookup acc.1 e.1 = dict_lookup stored e.1) :
    qr_step epsilon acc e =
      if qr_trigger stored epsilon e then (dict_set acc.1 e.1 e.2, true) else acc := by
  unfold qr_step qr_trigger
  rw [he]
  cases hl : dict_lookup stored e.1 with
  | none => simp
  | some prev =>
    by_cases hm : |prev.pos.1 - e.2.pos.1| + |prev.pos.2 - e.2.pos.2| > epsilon <;>
      simp [hm]

theorem qr_foldl_spec (epsilon : ℤ) :
    ∀ (l : List (String × QRData)) (stored : List (String × QRData))
      (p : List (String × QRData) × Bool),
      (∀ e ∈ l, dict_lookup p.1 e.1 = dict_lookup stored e.1) →
      ((l.map Prod.fst).Nodup) →
      ((l.foldl (qr_step epsilon) p).2 = (p.2 || l.any (qr_trigger stored epsilon))) ∧
      ((l.all fun e => !(qr_trigger stored epsilon e)) = true →
        l.foldl (qr_step epsilon) p = p) := by
  intro l
  induction l with
  | nil =>
    intro stored p _ _
    simp
  | cons e rest ih =>
    intro stored p hinv hnd
    have he : dict_lookup p.1 e.1 = dict_lookup stored e.1 := hinv e (by simp)
    have hnotin : e.1 ∉ rest.map Prod.fst := by
      have := hnd
      simp only [List.map_cons, List.nodup_cons] at this
      exact this.1
    have hnd_rest : (rest.map Prod.fst).Nodup := by
      have := hnd
      simp only [List.map_cons, List.nodup_cons] at this
      exact this.2
    simp only [List.foldl_cons, qr_step_eq epsilon p e stored he]
    cases htrig : qr_trigger stored epsilon e
    · simp only [htrig, Bool.false_eq_true, if_false]
      have hres := ih stored p (fun e' he' => hinv e' (by simp [he'])) hnd_rest
      constructor
      · rw [hres.1]
        simp [htrig]
      · intro hall
        refine hres.2 ?_
        simp only [List.all_cons, Bool.and_eq_true] at hall
        exact hall.2
    · simp only [htrig, eq_self_iff_true, if_true]
      have hinv' : ∀ e' ∈ rest,
          dict_lookup (dict_set p.1 e.1 e.2) e'.1 = dict_lookup stored e'.1 := by
        intro e' he'
        have hne : e'.1 ≠ e.1 := by
          intro hcontra
          exact hnotin (hcontra ▸ List.mem_map_of_mem Prod.fst he')
        rw [dict_lookup_set, if_neg hne]
        exact hinv e' (by simp [he'])
      have hres := ih stored (dict_set p.1 e.1 e.2, true) hinv' hnd_rest
      constructor
      · rw [hres.1]
        simp [htrig]
      · intro hall
        simp only [List.all_cons, htrig, Bool.not_true, Bool.false_and] at hall
        exact absurd hall (by simp)

/-- C8 amended: `update_detection_data` emits (and only then mutates the
stored data) exactly when at least one entry of the new detection data is
a new marker id or moved more than epsilon (Manhattan distance) from its
stored position; in particular markers that disappear never trigger an
emission, and when nothing triggers, the stored data is returned unchanged
and nothing is emitted.  (The no-duplicate-ids hypothesis is guaranteed by
the Python dict the detections arrive in.) -/
theorem update_detection_data_emits_iff (stored new_data : List (String × QRData))
    (epsilon : ℤ) (hnd : (new_data.map Prod.fst).Nodup) :
    ((update_detection_data stored new_data epsilon).2
        = new_data.any (qr_trigger stored epsilon)) ∧
    ((new_data.any (qr_trigger stored epsilon) = false) →
      update_detection_data stored new_data epsilon = (stored, false)) := by
  have hspec := qr_foldl_spec epsilon new_data stored (stored, false)
    (fun _ _ => rfl) hnd
  constructor
  · rw [update_detection_data, hspec.1]
    simp
  · intro hany
    rw [update_detection_data]
    refine hspec.2 ?_
    simp only [List.any_eq_false] at hany
    simp only [List.all_eq_true]
    intro e he
    simp [hany e he]

theorem update_detection_data_emits_iff_witness :
    ((update_detection_data [] [("A", qr_data_A)] 4).2
        = [("A", qr_data_A)].any (qr_trigger [] 4)) ∧
    (([("A", qr_data_A)].any (qr_trigger [] 4) = false) →
      update_detection_data [] [("A", qr_data_A)] 4 = ([], false)) :=
  update_detection_data_emits_iff [] [("A", qr_data_A)] 4 (by simp)
